import Mathlib

/-!
Shallow embedding of the orbipacket codec (lib.rs, payload.rs, device_id.rs,
encode.rs, decode.rs).

Buffers are `List Nat` whose elements model `u8` values (< 256).  The external
`cobs` collaborator (byte stuffing) and the `crc` collaborator
(CRC-16/OPENSAFETY-B) are modelled by their standard algorithms; both models
are validated below against the byte-exact vectors recorded in the
repository's own doctests and unit tests.

Panics are modelled by `Option`: a `none` result stands for a Rust panic
(integer-overflow panic or out-of-bounds slice index).
-/

namespace Orbipacket

/-! ### CRC-16/OPENSAFETY-B (`crc::CRC_16_OPENSAFETY_B`)

Width 16, polynomial 0x755B, init 0, no reflection, no xorout. -/

def crcPoly : Nat := 0x755B

def crcShift (c : Nat) : Nat :=
  if 32768 ≤ c then ((c * 2) ^^^ crcPoly) % 65536 else (c * 2) % 65536

def crcStep (c b : Nat) : Nat :=
  let c0 := (c ^^^ (b * 256)) % 65536
  crcShift (crcShift (crcShift (crcShift (crcShift (crcShift (crcShift (crcShift c0)))))))

def crc16 (l : List Nat) : Nat := l.foldl crcStep 0

/-! ### COBS byte stuffing (`cobs` crate collaborator)

`cobsEncode` is the standard COBS encoder (buffer-to-buffer `cobs::encode`),
`cobsDecode` the standard sentinel-aware decoder (`cobs::decode_in_place`):
decoding stops at the first zero byte of the input.  `maxEncodingLength`
is `cobs::max_encoding_length`. -/

def maxEncodingLength (sourceLen : Nat) : Nat :=
  sourceLen + sourceLen / 254 + (if sourceLen % 254 > 0 then 1 else 0)

/-- Standard COBS encoding: `block` accumulates the literal bytes of the
current group (at most 254 of them). -/
def cobsEncodeAux : List Nat → List Nat → List Nat
  | [], block => (block.length + 1) :: block
  | b :: rest, block =>
    if b = 0 then ((block.length + 1) :: block) ++ cobsEncodeAux rest []
    else if block.length = 253 then (255 :: (block ++ [b])) ++ cobsEncodeAux rest []
    else cobsEncodeAux rest (block ++ [b])

def cobsEncode (src : List Nat) : List Nat := cobsEncodeAux src []

inductive CobsError where
  | invalidFrame
deriving DecidableEq, Repr

/-- Decode a zero-free COBS run (the input as truncated at the sentinel).
Every step consumes at least the code byte, so `fuel = src.length` always
suffices and the fuel-exhaustion arm is unreachable; the fuel only makes the
recursion structural. -/
def cobsDecodeRun : Nat → List Nat → Except CobsError (List Nat)
  | _, [] => .ok []
  | 0, _ :: _ => .error .invalidFrame
  | fuel + 1, code :: rest =>
    if rest.length < code - 1 then .error .invalidFrame
    else
      let block := rest.take (code - 1)
      let rest2 := rest.drop (code - 1)
      match cobsDecodeRun fuel rest2 with
      | .error e => .error e
      | .ok t => .ok (block ++ (if code ≠ 255 ∧ rest2 ≠ [] then [0] else []) ++ t)

/-- `cobs::decode_in_place`: stops at the first sentinel (zero) byte. -/
def cobsDecode (buf : List Nat) : Except CobsError (List Nat) :=
  cobsDecodeRun (buf.takeWhile (· != 0)).length (buf.takeWhile (· != 0))

/-- The buffer left behind by `cobs::decode_in_place` on success: the decoded
bytes overwrite the prefix, the remaining bytes keep their prior values. -/
def cobsDecodeBufAfter (buf : List Nat) : List Nat :=
  match cobsDecode buf with
  | .ok d => d ++ buf.drop d.length
  | .error _ => buf

/-! ### `device_id.rs` -/

inductive DeviceIdError where
  | InvalidId (v : Nat)
deriving DecidableEq, Repr

/-- `DeviceId` of `device_id.rs` (the dedicated device-id module, which the
decoder imports; it supersedes the stale duplicate enum in `lib.rs`). -/
inductive DeviceId where
  | System
  | TimeSync
  | Gps
  | Camera
  | Accelerometer
  | Gyroscope
  | Altimeter
  | Magnetometer
  | PressureSensor
  | TemperatureSensor
  | HumiditySensor
  | RadiationSensor
  | Mission1
  | Mission2
  | Mission3
  | Mission4
deriving DecidableEq, Repr

/-- The `#[repr(u8)]` discriminant of each variant (`d as u8`). -/
def DeviceId.code : DeviceId → Nat
  | .System => 0
  | .TimeSync => 1
  | .Gps => 2
  | .Camera => 3
  | .Accelerometer => 4
  | .Gyroscope => 5
  | .Altimeter => 6
  | .Magnetometer => 7
  | .PressureSensor => 8
  | .TemperatureSensor => 9
  | .HumiditySensor => 10
  | .RadiationSensor => 11
  | .Mission1 => 12
  | .Mission2 => 13
  | .Mission3 => 14
  | .Mission4 => 15

/-- `impl TryFrom<u8> for DeviceId` (`device_id.rs`, the 16-arm match). -/
def DeviceId.try_from (value : Nat) : Except DeviceIdError DeviceId :=
  if value = 0 then .ok .System
  else if value = 1 then .ok .TimeSync
  else if value = 2 then .ok .Gps
  else if value = 3 then .ok .Camera
  else if value = 4 then .ok .Accelerometer
  else if value = 5 then .ok .Gyroscope
  else if value = 6 then .ok .Altimeter
  else if value = 7 then .ok .Magnetometer
  else if value = 8 then .ok .PressureSensor
  else if value = 9 then .ok .TemperatureSensor
  else if value = 10 then .ok .HumiditySensor
  else if value = 11 then .ok .RadiationSensor
  else if value = 12 then .ok .Mission1
  else if value = 13 then .ok .Mission2
  else if value = 14 then .ok .Mission3
  else if value = 15 then .ok .Mission4
  else .error (.InvalidId value)

/-! ### `payload.rs` -/

inductive PayloadError where
  | PayloadTooLong (length : Nat)
deriving DecidableEq, Repr

/-- `Payload`: a fixed 255-byte array plus an explicit length. -/
structure Payload where
  data : List Nat
  length : Nat
deriving DecidableEq, Repr

def Payload.MAX_SIZE : Nat := 255

/-- `Payload::new()`. -/
def Payload.new : Payload := ⟨List.replicate 255 0, 0⟩

/-- `Payload::from_raw_bytes`. -/
def Payload.from_raw_bytes (bytes : List Nat) : Except PayloadError Payload :=
  if Payload.MAX_SIZE < bytes.length then .error (.PayloadTooLong bytes.length)
  else .ok ⟨bytes ++ List.replicate (255 - bytes.length) 0, bytes.length⟩

/-- `Payload::as_bytes`: the stored prefix of `length` bytes. -/
def Payload.as_bytes (p : Payload) : List Nat := p.data.take p.length

/-! ### `lib.rs`: version, timestamp, packets -/

def VERSION : Nat := 1

/-- `Timestamp(u64)` of `lib.rs` (`new`/`get` are total pass-throughs). -/
structure Timestamp where
  t : Nat
deriving DecidableEq, Repr

def Timestamp.new (n : Nat) : Timestamp := ⟨n⟩

def Timestamp.get (ts : Timestamp) : Nat := ts.t

structure InternalPacket where
  version : Nat
  device_id : DeviceId
  timestamp : Timestamp
  payload : Payload
deriving DecidableEq, Repr

/-- `InternalPacket::new`: fixes `version` to the crate `VERSION`. -/
def InternalPacket.new (d : DeviceId) (ts : Timestamp) (p : Payload) : InternalPacket :=
  ⟨VERSION, d, ts, p⟩

/-- `InternalPacket::OVERHEAD = 1 + 1 + 1 + 8 + 2` (`lib.rs`). -/
def InternalPacket.OVERHEAD : Nat := 13

def InternalPacket.size (p : InternalPacket) : Nat :=
  InternalPacket.OVERHEAD + p.payload.length

def InternalPacket.encoded_size (p : InternalPacket) : Nat :=
  maxEncodingLength p.size + 1

structure TmPacket where
  ip : InternalPacket
deriving DecidableEq, Repr

structure TcPacket where
  ip : InternalPacket
deriving DecidableEq, Repr

def TmPacket.new (d : DeviceId) (ts : Timestamp) (p : Payload) : TmPacket :=
  ⟨InternalPacket.new d ts p⟩

def TcPacket.new (d : DeviceId) (ts : Timestamp) (p : Payload) : TcPacket :=
  ⟨InternalPacket.new d ts p⟩

inductive Packet where
  | TmPacket (p : TmPacket)
  | TcPacket (p : TcPacket)
deriving DecidableEq, Repr

/-! ### `encode.rs` -/

inductive EncodeError where
  | BufferTooSmall (required available : Nat)
deriving DecidableEq, Repr

/-- `InternalPacket::encode_buffer_size`. -/
def InternalPacket.encode_buffer_size (p : InternalPacket) : Nat :=
  InternalPacket.OVERHEAD + p.payload.length + p.encoded_size

/-- `u64::to_le_bytes` of the timestamp value. -/
def u64LeBytes (n : Nat) : List Nat :=
  [n % 256, n / 256 % 256, n / 256 ^ 2 % 256, n / 256 ^ 3 % 256,
   n / 256 ^ 4 % 256, n / 256 ^ 5 % 256, n / 256 ^ 6 % 256, n / 256 ^ 7 % 256]

/-- `InternalPacket::write_header_to_buffer`: the 11 header bytes written at
the start of the buffer (version, payload length, control byte, 8-byte
little-endian timestamp). -/
def InternalPacket.write_header_to_buffer (p : InternalPacket) (is_tm_packet : Bool) :
    List Nat :=
  let control := p.device_id.code <<< 2 ||| (if is_tm_packet then 0 else 1 <<< 7)
  [p.version, p.payload.length, control] ++ u64LeBytes p.timestamp.get

/-- The raw (pre-stuffing) frame `encode` assembles: header, payload bytes,
then the CRC-16 over everything so far, little-endian. -/
def InternalPacket.encodeRaw (p : InternalPacket) (is_tm_packet : Bool) : List Nat :=
  let hp := p.write_header_to_buffer is_tm_packet ++ p.payload.as_bytes
  let checksum := crc16 hp
  hp ++ [checksum % 256, checksum / 256 % 256]

/-- `InternalPacket::encode`, with the in-place buffer mutation made explicit:
returns the buffer after the call together with the `Result`.  On success the
returned slice is the stuffed frame plus its zero terminator, and the buffer
holds the raw frame, then the stuffed frame, then the terminator, then the
untouched tail of the caller's buffer. -/
def InternalPacket.encodeFull (p : InternalPacket) (is_tm_packet : Bool)
    (buffer : List Nat) : List Nat × Except EncodeError (List Nat) :=
  let available := buffer.length
  let required := p.encode_buffer_size
  if available < required then
    (buffer, .error (.BufferTooSmall required available))
  else
    let raw := p.encodeRaw is_tm_packet
    let stuffed := cobsEncode raw
    ((raw ++ stuffed ++ [0]) ++ buffer.drop (raw.length + stuffed.length + 1),
     .ok (stuffed ++ [0]))

/-- `TmPacket::encode` / `TcPacket::encode`, result component only. -/
def InternalPacket.encode (p : InternalPacket) (is_tm_packet : Bool)
    (buffer : List Nat) : Except EncodeError (List Nat) :=
  (p.encodeFull is_tm_packet buffer).2

/-! ### `decode.rs` -/

inductive DecodeError where
  | Cobs (e : CobsError)
  | BufferTooShort (len : Nat)
  | UnsupportedVersion (v : Nat)
  | InvalidChecksum (expected found : Nat)
  | InvalidLength (expected found : Nat)
  | IdError (e : DeviceIdError)
deriving DecidableEq, Repr

/-- Direction extraction of `decode_single`: `(buf[2] & 1 << 7) == 0`. -/
def ctrlIsTm (ctrl : Nat) : Bool := ctrl &&& (1 <<< 7) = 0

/-- Device-id extraction of `decode_single`: `(buf[2] & 0b01111100) >> 2`. -/
def ctrlDeviceCode (ctrl : Nat) : Nat := (ctrl &&& 0b01111100) >>> 2

/-- `Packet::decode_single`.  `none` models a panic (only reachable when the
input contains non-byte values, which `u8` slices cannot).  The checks appear
in the source's order: COBS un-stuffing, minimum length, version, declared
payload length, checksum, device id.  The timestamp is read from the five
bytes at offsets 3–7 and the payload from offset 8 onward, exactly as in the
source. -/
def Packet.decode_single (buf : List Nat) : Option (Except DecodeError Packet) :=
  match cobsDecode buf with
  | .error e => some (.error (.Cobs e))
  | .ok d =>
    let len := d.length
    if len < 13 then some (.error (.BufferTooShort len))
    else if d.get! 0 ≠ VERSION then some (.error (.UnsupportedVersion (d.get! 0)))
    else
      let found_payload_len := d.get! 1
      let expected_payload_len := len - InternalPacket.OVERHEAD
      if found_payload_len ≠ expected_payload_len then
        some (.error (.InvalidLength expected_payload_len found_payload_len))
      else
        let found_checksum := d.get! (len - 2) + 256 * d.get! (len - 1)
        let expected_checksum := crc16 (d.take (len - 2))
        if found_checksum ≠ expected_checksum then
          some (.error (.InvalidChecksum expected_checksum found_checksum))
        else
          let tmtc := ctrlIsTm (d.get! 2)
          let id := ctrlDeviceCode (d.get! 2)
          let timestamp := d.get! 3 + 256 * d.get! 4 + 256 ^ 2 * d.get! 5 +
            256 ^ 3 * d.get! 6 + 256 ^ 4 * d.get! 7
          match DeviceId.try_from id with
          | .error e => some (.error (.IdError e))
          | .ok did =>
            match Payload.from_raw_bytes ((d.drop 8).take found_payload_len) with
            | .error _ => none
            | .ok pl =>
              let packet := InternalPacket.new did (Timestamp.new timestamp) pl
              some (.ok (if tmtc then .TmPacket ⟨packet⟩ else .TcPacket ⟨packet⟩))

/-- The buffer after a `decode_single` call whose un-stuffing succeeded
(the only case in which `decode_stateless` keeps using the buffer). -/
def Packet.decode_single_buf_after (buf : List Nat) : List Nat :=
  cobsDecodeBufAfter buf

/-- The loop of `Packet::decode_stateless`.  Faithful to the source: the
search for a zero byte always restarts from the beginning of `buf`; `buf` is
never advanced past decoded frames; when `out` is full, `out_idx` is
decremented before breaking (`none` models the panic this underflow causes
when `out` is empty); any decode error aborts the whole call. -/
def Packet.dsLoop (fuel : Nat) (buf : List Nat) (out : List Packet) (out_idx : Nat) :
    Option (Except DecodeError (List Nat × List Packet)) :=
  match fuel with
  | 0 => none
  | fuel + 1 =>
    match buf.findIdx? (· == 0) with
    | some idx =>
      if out.length ≤ out_idx then
        if out_idx = 0 then none
        else
          let trailing := match buf.findIdx? (· == 0) with
            | some i => buf.drop i
            | none => []
          some (.ok (trailing, out.take (out_idx - 1)))
      else
        match Packet.decode_single (buf.take idx) with
        | none => none
        | some (.error e) => some (.error e)
        | some (.ok p) =>
          Packet.dsLoop fuel (Packet.decode_single_buf_after (buf.take idx) ++ buf.drop idx)
            (out.set out_idx p) (out_idx + 1)
    | none =>
      let trailing := match buf.findIdx? (· == 0) with
        | some i => buf.drop i
        | none => []
      some (.ok (trailing, out.take out_idx))

/-- `Packet::decode_stateless`.  Each loop iteration that recurses increments
`out_idx` and requires `out_idx < out.length`, so `out.length + 1` fuel always
suffices and `dsLoop`'s fuel-exhaustion arm is unreachable; the fuel only
makes the loop's recursion structural. -/
def Packet.decode_stateless (buf : List Nat) (out : List Packet) :
    Option (Except DecodeError (List Nat × List Packet)) :=
  Packet.dsLoop (out.length + 1) buf out 0

/-- `TmPacket::encode`. -/
def TmPacket.encode (p : TmPacket) (buffer : List Nat) : Except EncodeError (List Nat) :=
  p.ip.encode true buffer

/-- `TcPacket::encode`. -/
def TcPacket.encode (p : TcPacket) (buffer : List Nat) : Except EncodeError (List Nat) :=
  p.ip.encode false buffer

/-! ### Concrete fixtures used by the theorems below -/

/-- The payload `[0xAB, 0xCD, 0xEF, 0x00]` (`0xABCDEF_u32` little-endian),
as `Payload::from_raw_bytes` stores it. -/
def payloadABCDEF : Payload := ⟨[239, 205, 171, 0] ++ List.replicate 251 0, 4⟩

/-- The raw frame of the `lib.rs` doctest packet: version 1, 11-byte payload
`b"hello world"`, control byte 4, timestamp 1234, with its CRC appended. -/
def helloRaw : List Nat :=
  [1, 11, 4, 210, 4, 0, 0, 0, 0, 0, 0] ++
    [104, 101, 108, 108, 111, 32, 119, 111, 114, 108, 100] ++ [223, 75]

/-- A minimal telemetry packet: device `System`, timestamp 0, empty payload. -/
def pkt0 : InternalPacket := InternalPacket.new .System (Timestamp.new 0) Payload.new

/-- The encoded frame of `pkt0` (stuffed frame plus zero terminator). -/
def frameA : List Nat := [2, 1, 1, 1, 1, 1, 1, 1, 1, 1, 1, 3, 212, 96, 0]

/-- An arbitrary packet filling the caller's output slots before a call. -/
def dummyPacket : Packet := .TmPacket (TmPacket.new .System (Timestamp.new 0) Payload.new)

/-- `Payload::from_raw_bytes([0xAB])` as stored. -/
def payload171 : Payload := ⟨[171] ++ List.replicate 254 0, 1⟩

/-- A telemetry packet with the one-byte payload `[0xAB]` and timestamp 0. -/
def tmPkt171 : TmPacket := TmPacket.new .System (Timestamp.new 0) payload171

/-- The encoded frame of `tmPkt171`. -/
def frameB : List Nat := [3, 1, 1, 1, 1, 1, 1, 1, 1, 1, 1, 4, 171, 66, 14, 0]

/-- The stuffed frame of the `decode_single` doctest in `decode.rs`. -/
def docBuf : List Nat :=
  [5, 1, 4, 4, 10, 1, 1, 1, 1, 1, 1, 4, 239, 205, 171, 3, 28, 228, 0]

/-- The un-stuffed form of `docBuf`: an 8-byte-timestamp frame whose payload
`[0xEF, 0xCD, 0xAB, 0x00]` sits at offsets 11–14. -/
def docRaw : List Nat :=
  [1, 4, 4, 10, 0, 0, 0, 0, 0, 0, 0, 239, 205, 171, 0, 28, 228]

/-- A 13-byte raw frame whose declared payload length (7) disagrees with the
frame size (payload length 0) and whose embedded checksum (0) is wrong. -/
def cxRaw : List Nat := [1, 7, 0, 0, 0, 0, 0, 0, 0, 0, 0, 0, 0]

/-- `cxRaw` byte-stuffed and zero-terminated. -/
def cxBuf : List Nat := [3, 1, 7, 1, 1, 1, 1, 1, 1, 1, 1, 1, 1, 1, 0]

/-! ### Validation of the collaborator models against the repository's own
recorded byte vectors -/

deriving instance DecidableEq for Except

set_option maxRecDepth 8000 in
/-- CRC-16/OPENSAFETY-B check value: `crc16("123456789") = 0x20FE`. -/
theorem crc16_check_value : crc16 [49, 50, 51, 52, 53, 54, 55, 56, 57] = 0x20FE := by
  decide

set_option maxRecDepth 8000 in
/-- The CRC and COBS models reproduce, byte for byte, the encoded frame
asserted in the `lib.rs` doctest
(`[6, 1, 11, 4, 0xD2, 0x04, 1, 1, 1, 1, 1, 14, b"hello world", 223, 75, 0]`). -/
theorem collaborators_match_doctest :
    crc16 (helloRaw.take 22) = 75 * 256 + 223 ∧
    cobsEncode (helloRaw.take 22 ++ [223, 75]) ++ [0] =
      [6, 1, 11, 4, 210, 4, 1, 1, 1, 1, 1, 14,
       104, 101, 108, 108, 111, 32, 119, 111, 114, 108, 100, 223, 75, 0] ∧
    cobsDecode (cobsEncode helloRaw ++ [0]) = .ok helloRaw := by
  decide

set_option maxRecDepth 8000 in
/-- The full encoder reproduces the byte vector asserted by the
`internal_packet_encode_tm_packet_works` unit test of `encode.rs`
(control byte 4, i.e. device code 1, timestamp 10, payload `0xABCDEF_u32`). -/
theorem encode_matches_unit_test :
    (InternalPacket.new .TimeSync (Timestamp.new 10) payloadABCDEF).encode true
        (List.replicate 600 0) =
      .ok [5, 1, 4, 4, 10, 1, 1, 1, 1, 1, 1, 4, 239, 205, 171, 3, 28, 228, 0] := by
  decide

set_option maxRecDepth 8000 in
/-- `frameA` is what the encoder produces for `pkt0`, and it is a valid
single frame: `decode_single` accepts it (with or without its terminator). -/
theorem frameA_valid :
    pkt0.encode true (List.replicate 60 7) = .ok frameA ∧
    Packet.decode_single frameA = some (.ok dummyPacket) ∧
    Packet.decode_single (frameA.take 14) = some (.ok dummyPacket) := by
  decide

set_option maxRecDepth 8000 in
/-- `frameB` is what the encoder produces for `tmPkt171`. -/
theorem frameB_valid : tmPkt171.encode (List.replicate 40 7) = .ok frameB := by
  decide

/-! ### Claim theorems -/

/-- Claim C7: `Payload::from_raw_bytes(bytes)` fails, with
`PayloadTooLong(bytes.len())`, exactly when `bytes.len() > 255`; on success
the payload satisfies `as_bytes() == bytes` and `length() == bytes.len()`. -/
theorem payload_from_raw_bytes_contract (bytes : List Nat) :
    (Payload.MAX_SIZE < bytes.length →
      Payload.from_raw_bytes bytes = .error (.PayloadTooLong bytes.length)) ∧
    (bytes.length ≤ Payload.MAX_SIZE →
      ∃ p, Payload.from_raw_bytes bytes = .ok p ∧
        p.as_bytes = bytes ∧ p.length = bytes.length) := by
  constructor
  · intro h
    unfold Payload.from_raw_bytes
    rw [if_pos h]
  · intro h
    refine ⟨⟨bytes ++ List.replicate (255 - bytes.length) 0, bytes.length⟩, ?_, ?_, rfl⟩
    · unfold Payload.from_raw_bytes
      rw [if_neg (Nat.not_lt.2 h)]
    · show (bytes ++ List.replicate (255 - bytes.length) 0).take bytes.length = bytes
      exact List.take_left bytes _

set_option maxRecDepth 8000 in
/-- Witness for the C7 theorem at lengths 256 (failure) and 1 (success). -/
theorem payload_from_raw_bytes_contract_witness :
    Payload.from_raw_bytes (List.replicate 256 9) =
      .error (.PayloadTooLong (List.replicate (α := Nat) 256 9).length) ∧
    ∃ p, Payload.from_raw_bytes [171] = .ok p ∧
      p.as_bytes = [171] ∧ p.length = ([171] : List Nat).length :=
  ⟨(payload_from_raw_bytes_contract (List.replicate 256 9)).1 (by decide),
   (payload_from_raw_bytes_contract [171]).2 (by decide)⟩

/-- Claim C10: `DeviceId::try_from` inverts the numeric codes — it maps each
variant's code back to that variant and rejects every `u8` above 15 with
`InvalidId`, so it is injective on 0–15 and total on all 256 byte values. -/
theorem device_id_try_from_inverse :
    (∀ d : DeviceId, DeviceId.try_from d.code = .ok d) ∧
    (∀ v : Nat, 15 < v → v < 256 → DeviceId.try_from v = .error (.InvalidId v)) := by
  constructor
  · intro d
    cases d <;> rfl
  · intro v h1 _
    obtain ⟨w, rfl⟩ : ∃ w, v = w + 16 := ⟨v - 16, by omega⟩
    rfl

/-- Witness for the C10 theorem at `Gps` (code 2) and at the invalid code 42. -/
theorem device_id_try_from_inverse_witness :
    DeviceId.try_from DeviceId.Gps.code = .ok DeviceId.Gps ∧
    DeviceId.try_from 42 = .error (.InvalidId 42) :=
  ⟨device_id_try_from_inverse.1 .Gps,
   device_id_try_from_inverse.2 42 (by decide) (by decide)⟩

/-- Claim C8: `encode` fails, before writing anything and leaving the buffer
unchanged, with `BufferTooSmall{required, available}` exactly when the buffer
is shorter than `encode_buffer_size() = OVERHEAD + payload.length() +
(max_encoding_length(OVERHEAD + payload.length()) + 1)`; otherwise it
succeeds. -/
theorem encode_buffer_too_small_iff (p : InternalPacket) (is_tm : Bool)
    (buffer : List Nat) :
    p.encode_buffer_size =
      InternalPacket.OVERHEAD + p.payload.length +
        (maxEncodingLength (InternalPacket.OVERHEAD + p.payload.length) + 1) ∧
    (buffer.length < p.encode_buffer_size →
      p.encodeFull is_tm buffer =
        (buffer, .error (.BufferTooSmall p.encode_buffer_size buffer.length))) ∧
    (p.encode_buffer_size ≤ buffer.length →
      p.encodeFull is_tm buffer =
        ((p.encodeRaw is_tm ++ cobsEncode (p.encodeRaw is_tm) ++ [0]) ++
            buffer.drop
              ((p.encodeRaw is_tm).length + (cobsEncode (p.encodeRaw is_tm)).length + 1),
         .ok (cobsEncode (p.encodeRaw is_tm) ++ [0]))) := by
  refine ⟨rfl, ?_, ?_⟩
  · intro h
    unfold InternalPacket.encodeFull
    rw [if_pos h]
  · intro h
    unfold InternalPacket.encodeFull
    rw [if_neg (Nat.not_lt.2 h)]

/-- Witness for the C8 theorem: a 5-byte buffer is rejected for `pkt0`
(required size 29) with the buffer returned unchanged. -/
theorem encode_buffer_too_small_iff_witness :
    pkt0.encodeFull true (List.replicate 5 9) =
      (List.replicate 5 9,
       .error (.BufferTooSmall pkt0.encode_buffer_size
         (List.replicate (α := Nat) 5 9).length)) :=
  (encode_buffer_too_small_iff pkt0 true (List.replicate 5 9)).2.1 (by decide)

/-- Every device code of `device_id.rs` fits in the 5-bit field. -/
theorem DeviceId.code_le (d : DeviceId) : d.code ≤ 15 := by
  cases d <;> decide

/-- Bit-level facts about the control byte the encoder assembles. -/
theorem ctrl_bits (code : Nat) (hc : code ≤ 15) (is_tm : Bool) :
    (code <<< 2 ||| (if is_tm then 0 else 1 <<< 7)) / 128 % 2 = (if is_tm then 0 else 1) ∧
    (code <<< 2 ||| (if is_tm then 0 else 1 <<< 7)) / 4 % 32 = code ∧
    ctrlIsTm (code <<< 2 ||| (if is_tm then 0 else 1 <<< 7))  = is_tm ∧
    ctrlDeviceCode (code <<< 2 ||| (if is_tm then 0 else 1 <<< 7)) = code := by
  cases is_tm <;> interval_cases code <;> decide

/-- Claim C9: the raw header is version at offset 0, payload length at
offset 1, a control byte at offset 2 whose bit 7 is 0 for telemetry and 1
for telecommand and whose bits 6–2 hold the device-id code, then the 8-byte
little-endian timestamp at offsets 3–10; `decode_single`'s extraction
functions (`ctrlIsTm`, `ctrlDeviceCode`) read those same bit positions. -/
theorem header_layout_bits (p : InternalPacket) (is_tm : Bool) :
    ∃ control,
      p.write_header_to_buffer is_tm =
        [p.version, p.payload.length, control,
         p.timestamp.get % 256, p.timestamp.get / 256 % 256,
         p.timestamp.get / 256 ^ 2 % 256, p.timestamp.get / 256 ^ 3 % 256,
         p.timestamp.get / 256 ^ 4 % 256, p.timestamp.get / 256 ^ 5 % 256,
         p.timestamp.get / 256 ^ 6 % 256, p.timestamp.get / 256 ^ 7 % 256] ∧
      control / 128 % 2 = (if is_tm then 0 else 1) ∧
      control / 4 % 32 = p.device_id.code ∧
      ctrlIsTm control = is_tm ∧
      ctrlDeviceCode control = p.device_id.code := by
  obtain ⟨h1, h2, h3, h4⟩ :=
    ctrl_bits p.device_id.code (DeviceId.code_le p.device_id) is_tm
  exact ⟨_, rfl, h1, h2, h3, h4⟩

set_option maxRecDepth 8000 in
/-- Claim C1 fails on the code: encoding the telemetry packet
(`System`, timestamp 0, payload `[0xAB]`) and decoding the returned slice
yields a packet whose payload is `[0]` (the sixth timestamp byte), not
`[0xAB]` — the decoder reads a 5-byte timestamp at offsets 3–7 and the
payload at offset 8, while the encoder wrote an 8-byte timestamp and the
payload at offset 11. -/
theorem roundtrip_divergence :
    Payload.from_raw_bytes [171] = .ok payload171 ∧
    tmPkt171.encode (List.replicate 40 7) = .ok frameB ∧
    Packet.decode_single frameB =
      some (.ok (.TmPacket ⟨InternalPacket.new .System (Timestamp.new 0)
        (Payload.mk ([0] ++ List.replicate 254 0) 1)⟩)) ∧
    (Payload.mk ([0] ++ List.replicate 254 0) 1).as_bytes = [0] ∧
    tmPkt171.ip.payload.as_bytes = [171] ∧
    ([0] : List Nat) ≠ [171] := by
  decide

/-- Claim C2 fails on the code: `decode_stateless` called with an output
array of length zero and a buffer containing a zero byte reaches
`out_idx -= 1` with `out_idx = 0`, a `usize` underflow (a panic in debug
builds; in release builds the wrapped value then makes `out[..out_idx]`
panic).  `none` is the model's value for a panic. -/
theorem decode_stateless_underflow_empty_out :
    Packet.decode_stateless [0] [] = none := rfl

set_option maxRecDepth 8000 in
/-- Counterexample to claim C3: `cxBuf` un-stuffs to the 13-byte `cxRaw`,
passes the minimum-length and version checks, carries a wrong embedded
checksum (0, while the computed CRC is nonzero) and a wrong declared payload
length (7, while the frame has room for 0 payload bytes) — yet
`decode_single` returns `InvalidLength`, not `InvalidChecksum`. -/
theorem length_checked_before_checksum_cex :
    cobsDecode cxBuf = .ok cxRaw ∧
    cxRaw.length = 13 ∧
    cxRaw.get! 0 = VERSION ∧
    cxRaw.get! 1 ≠ cxRaw.length - InternalPacket.OVERHEAD ∧
    cxRaw.get! (cxRaw.length - 2) + 256 * cxRaw.get! (cxRaw.length - 1) ≠
      crc16 (cxRaw.take (cxRaw.length - 2)) ∧
    Packet.decode_single cxBuf = some (.error (.InvalidLength 0 7)) := by
  decide

/-- Claim C3 (amended): `decode_single` compares the declared payload-length
byte to `len - OVERHEAD` before validating the checksum, so every frame that
un-stuffs successfully, passes the minimum-length and version checks, and
has a mismatched declared length yields `InvalidLength` — regardless of the
checksum. -/
theorem invalid_length_before_checksum (buf d : List Nat)
    (hc : cobsDecode buf = .ok d)
    (hlen : 13 ≤ d.length)
    (hv : d.get! 0 = VERSION)
    (hl : d.get! 1 ≠ d.length - InternalPacket.OVERHEAD) :
    Packet.decode_single buf =
      some (.error (.InvalidLength (d.length - InternalPacket.OVERHEAD) (d.get! 1))) := by
  simp only [Packet.decode_single, hc]
  rw [if_neg (by omega), if_neg (not_not_intro hv), if_pos hl]

/-- Witness for the C3 theorem at the concrete frame `cxBuf`. -/
theorem invalid_length_before_checksum_witness :
    Packet.decode_single cxBuf =
      some (.error (.InvalidLength (cxRaw.length - InternalPacket.OVERHEAD)
        (cxRaw.get! 1))) :=
  invalid_length_before_checksum cxBuf cxRaw (by decide) (by decide) (by decide)
    (by decide)

set_option maxRecDepth 8000 in
/-- Claim C4 fails on the code: the accepted frame `docBuf` (the `decode.rs`
doctest input) un-stuffs to `docRaw`, whose bytes at offsets 11–14 are
`[0xEF, 0xCD, 0xAB, 0]`; yet the decoded payload is `[0, 0, 0, 0xEF]`
(the four bytes at offset 8) because the decoder reads only a 5-byte
timestamp at offsets 3–7 and starts the payload at offset 8. -/
theorem decode_offsets_divergence :
    cobsDecode docBuf = .ok docRaw ∧
    Packet.decode_single docBuf =
      some (.ok (.TmPacket ⟨InternalPacket.new .TimeSync (Timestamp.new 10)
        (Payload.mk ([0, 0, 0, 239] ++ List.replicate 251 0) 4)⟩)) ∧
    (Payload.mk ([0, 0, 0, 239] ++ List.replicate 251 0) 4).as_bytes = [0, 0, 0, 239] ∧
    (docRaw.drop 11).take 4 = [239, 205, 171, 0] ∧
    ([0, 0, 0, 239] : List Nat) ≠ [239, 205, 171, 0] := by
  decide

set_option maxRecDepth 8000 in
/-- Claim C5 fails on the code: on three concatenated valid frames with an
output array of capacity 1, `decode_stateless` returns an empty decoded
slice (the `out_idx` decrement drops the one decoded packet) and a remainder
that starts at byte 1 of the in-place-mutated first frame, not at the second
frame. -/
theorem decode_stateless_capacity_one_drops_packet :
    Packet.decode_stateless (frameA ++ frameA ++ frameA) [dummyPacket] =
      some (.ok ([0, 0, 0, 0, 0, 0, 0, 0, 0, 0, 212, 96, 96, 0] ++ frameA ++ frameA,
        [])) := by
  decide

set_option maxRecDepth 8000 in
/-- Claim C6 fails on the code: on two concatenated valid frames followed by
a truncated zero-free third fragment, with an output array of capacity 2,
`decode_stateless` aborts with `BufferTooShort 0` instead of returning both
packets — after the first frame is decoded in place, the zero at offset 1 of
its un-stuffed bytes is mistaken for a frame terminator and the one-byte
prefix `[2]` decodes to an empty buffer. -/
theorem decode_stateless_streaming_aborts :
    frameA.take 3 = [2, 1, 1] ∧
    Packet.decode_stateless (frameA ++ frameA ++ [2, 1, 1]) [dummyPacket, dummyPacket] =
      some (.error (.BufferTooShort 0)) := by
  decide

end Orbipacket
